import Mathlib

/-!
Verification development for the OBJ/MTL/TGA asset-loading pipeline of the
FPS-Game repository (`Vector3.h`, `Model.h`/`Model.cpp`, `Texture.h`/`Texture.cpp`).

Modelling conventions:
* C++ `float` values are modelled as exact rationals (`ℚ`); every concrete
  input used below is exactly representable, so no rounding behaviour is lost.
  `sqrt` (used only for `Length`, hence the bounding radius) is modelled with
  `Real.sqrt`.
* A mutating C++ member function on `Vector3` is modelled as a function
  returning a pair `(returnValue, thisAfterTheCall)`.
* `std::istringstream` is modelled by `CStream`, a cursor over the line's
  characters plus a fail flag: a failed extraction sets the flag, later
  extractions on a failed stream are no-ops yielding zero values, exactly as
  C++ (post-C++11) streams behave.  Reaching end-of-input during `get` or a
  failed extraction sets the flag (in C++ this is eofbit/failbit; the claims
  under study never distinguish the two).
* `operator>>` on numbers is modelled for sign + digits (+ optional fraction
  for floats); exponent notation is not modelled (never exercised by the
  repository's data or by any claim).
* The filesystem is a pair of partial maps (`FS`): text files as line lists,
  binary files as byte lists.  `none` models a file that cannot be opened.
-/

namespace FPS

/-! ## Kernel-evaluable rational addition

`Rat.add` normalises through `Nat.gcd`, which is defined by well-founded
recursion and therefore does not reduce inside the kernel, so `decide`
cannot evaluate concrete runs of the embedding if they use `+` on `ℚ`
directly.  `qAdd` below is rational addition implemented with a
structurally recursive gcd; `qAdd_eq` proves it IS `+`.  The embedding uses
`qAdd` only so that concrete scenes can be checked by `decide`. -/

/-- Euclid's algorithm with structural fuel recursion. -/
def sgcd : ℕ → ℕ → ℕ → ℕ
  | 0, _, n => n
  | fuel + 1, m, n => if m = 0 then n else sgcd fuel (n % m) m

theorem sgcd_eq : ∀ fuel m n : ℕ, m < fuel → sgcd fuel m n = Nat.gcd m n
  | fuel + 1, m, n, h => by
    rw [sgcd]
    by_cases h0 : m = 0
    · simp [h0]
    · rw [if_neg h0, sgcd_eq fuel (n % m) m
        (lt_of_lt_of_le (Nat.mod_lt n (Nat.pos_of_ne_zero h0)) (Nat.lt_succ_iff.mp h))]
      exact (Nat.gcd_rec m n).symm

def natGcdF (m n : ℕ) : ℕ := sgcd (m + 1) m n

theorem natGcdF_eq (m n : ℕ) : natGcdF m n = Nat.gcd m n :=
  sgcd_eq (m + 1) m n (Nat.lt_succ_self m)

/-- The normalised rational `n / d`, built with the structural gcd. -/
def qMk (n : Int) (d : ℕ) : ℚ :=
  if hd : d = 0 then 0
  else
    Rat.mk' (n / (natGcdF n.natAbs d : ℤ)) (d / natGcdF n.natAbs d)
      (Rat.normalize.den_nz hd (natGcdF_eq n.natAbs d))
      (Rat.normalize.reduced' hd (natGcdF_eq n.natAbs d))

theorem qMk_eq (n : Int) (d : ℕ) : qMk n d = mkRat n d := by
  unfold qMk
  split
  · rename_i hd
    simp [Rat.mkRat_def, hd]
  · rename_i hd
    rw [Rat.mkRat_def, dif_neg hd, Rat.normalize_eq]
    congr 1 <;> rw [natGcdF_eq]

/-- Rational addition by the textbook cross-multiplication formula, with the
structural gcd doing the normalisation. -/
def qAdd (a b : ℚ) : ℚ := qMk (a.num * b.den + b.num * a.den) (a.den * b.den)

theorem qAdd_eq (a b : ℚ) : qAdd a b = a + b := by
  rw [qAdd, qMk_eq, Rat.add_def']

/-! ## Vector3 (src/include/Vector3.h)

`Vector3` holds three floats `x, y, z`.  The operator pair conventions in the
source are unusual and are embedded exactly:

* `operator+` builds `Vector3(vec.x + x, vec.y + y, vec.z + z)` without
  mutating `*this`; `operator+=` performs `*this = (*this + vec)`.
* `operator*=`(float) and `operator/=`(float) build and return the scaled
  vector but do NOT assign to `*this`.
* `operator*`(float) and `operator/`(float) are written
  `return (*this = (*this * num));` / `return (*this = (*this / num));` —
  each body's multiplication/division resolves to the same operator again
  (the float argument is an exact overload match), so the call recurses
  unconditionally.  They are embedded with a fuel parameter; no amount of
  fuel produces a value.

`Normalize`, the cross product and `Dot` are omitted: no claim mentions
`faceNormal` or any of their uses. -/

structure Vec3 where
  x : ℚ
  y : ℚ
  z : ℚ
  deriving DecidableEq, Repr

/-- `Vector3::operator+` : `Vector3(vec.x + x, vec.y + y, vec.z + z)`;
`v` is `*this`, `w` the argument `vec`. Non-mutating.  Written with `qAdd`
(= `+` by `qAdd_eq`, see `vecAdd_eq`) so concrete runs reduce in the
kernel. -/
def vecAdd (v w : Vec3) : Vec3 := ⟨qAdd w.x v.x, qAdd w.y v.y, qAdd w.z v.z⟩

theorem vecAdd_eq (v w : Vec3) : vecAdd v w = ⟨w.x + v.x, w.y + v.y, w.z + v.z⟩ := by
  simp [vecAdd, qAdd_eq]

/-- `Vector3::operator+=` : `return (*this = (*this + vec));` — assigns and
returns the sum.  Result is `(returned value, *this after the call)`. -/
def vecAddEq (v w : Vec3) : Vec3 × Vec3 := (vecAdd v w, vecAdd v w)

/-- `Vector3::operator-` (binary) : `Vector3(x - vec.x, y - vec.y, z - vec.z)`. -/
def vecSub (v w : Vec3) : Vec3 := ⟨v.x - w.x, v.y - w.y, v.z - w.z⟩

/-- `Vector3::operator*=`(float) : `return Vector3(x * num, y * num, z * num);`
— despite its name it does NOT assign to `*this`.
Result is `(returned value, *this after the call)`. -/
def vecMulEq (v : Vec3) (s : ℚ) : Vec3 × Vec3 := (⟨v.x * s, v.y * s, v.z * s⟩, v)

/-- `Vector3::operator/=`(float) : `return Vector3(x / num, y / num, z / num);`
— despite its name it does NOT assign to `*this`.
Result is `(returned value, *this after the call)`. -/
def vecDivEq (v : Vec3) (s : ℚ) : Vec3 × Vec3 := (⟨v.x / s, v.y / s, v.z / s⟩, v)

/-- `Vector3::operator*`(float) : `return (*this = (*this * num));`.
The inner `*this * num` again selects `operator*`(float) (exact overload
match for the `float` argument), so the function calls itself before doing
anything else.  Fuel-indexed: `none` = the recursion has not terminated. -/
def vecMulScalar : ℕ → Vec3 → ℚ → Option (Vec3 × Vec3)
  | 0, _, _ => none
  | fuel + 1, v, s =>
    match vecMulScalar fuel v s with
    | none => none
    | some r => some (r.1, r.1)

/-- `Vector3::operator/`(float) : `return (*this = (*this / num));`.
The inner `*this / num` again selects `operator/`(float) — the only
division operator — so the function calls itself before doing anything
else.  Fuel-indexed: `none` = the recursion has not terminated. -/
def vecDivScalar : ℕ → Vec3 → ℚ → Option (Vec3 × Vec3)
  | 0, _, _ => none
  | fuel + 1, v, s =>
    match vecDivScalar fuel v s with
    | none => none
    | some r => some (r.1, r.1)

/-- Squared euclidean length, i.e. the argument of the `sqrt` in
`Vector3::Length`. -/
def lengthSq (v : Vec3) : ℚ := v.x * v.x + v.y * v.y + v.z * v.z

/-! ## Character streams (std::istringstream over one line) -/

/-- Whitespace as classified by the default-locale `isspace` used by stream
extraction. -/
def isWsChar (c : Char) : Prop :=
  c = ' ' ∨ c = '\t' ∨ c = '\n' ∨ c = '\r' ∨ c = '\x0b' ∨ c = '\x0c'

instance (c : Char) : Decidable (isWsChar c) := by
  unfold isWsChar; infer_instance

def skipWs : List Char → List Char
  | [] => []
  | c :: r => if isWsChar c then skipWs r else c :: r

/-- Longest non-whitespace prefix and the remainder. -/
def takeWord : List Char → List Char × List Char
  | [] => ([], [])
  | c :: r =>
    if isWsChar c then ([], c :: r)
    else
      let p := takeWord r
      (c :: p.1, p.2)

def charIsDigit : Char → Bool
  | '0' => true | '1' => true | '2' => true | '3' => true | '4' => true
  | '5' => true | '6' => true | '7' => true | '8' => true | '9' => true
  | _ => false

def charDigitVal : Char → ℕ
  | '1' => 1 | '2' => 2 | '3' => 3 | '4' => 4 | '5' => 5
  | '6' => 6 | '7' => 7 | '8' => 8 | '9' => 9 | _ => 0

/-- Longest digit prefix and the remainder. -/
def spanDigits : List Char → List Char × List Char
  | [] => ([], [])
  | c :: r =>
    if charIsDigit c then
      let p := spanDigits r
      (c :: p.1, p.2)
    else ([], c :: r)

def digitsToNat (ds : List Char) : ℕ := ds.foldl (fun a c => 10 * a + charDigitVal c) 0

/-- An `std::istringstream` positioned inside one line: remaining characters
plus the fail flag (failbit/eofbit folded together; see file header). -/
structure CStream where
  chars : List Char
  fail : Bool
  deriving DecidableEq, Repr

def lineStream (line : String) : CStream := { chars := line.toList, fail := false }

/-- `stream >> aString` : skip whitespace, read one token; extraction with no
token available fails. -/
def CStream.readWord (st : CStream) : String × CStream :=
  if st.fail then ("", st)
  else
    let p := takeWord (skipWs st.chars)
    if p.1 = [] then ("", { chars := p.2, fail := true })
    else (String.mk p.1, { chars := p.2, fail := false })

/-- `stream >> anInt` : skip whitespace, optional sign, digits; on failure the
target is set to `0` (C++11 `num_get`) and the stream fails. -/
def CStream.readInt (st : CStream) : Int × CStream :=
  if st.fail then (0, st)
  else
    let s := skipWs st.chars
    let sgn : Bool × List Char :=
      match s with
      | '-' :: r => (true, r)
      | '+' :: r => (false, r)
      | _ => (false, s)
    let p := spanDigits sgn.2
    if p.1 = [] then (0, { chars := p.2, fail := true })
    else
      let v : Int := digitsToNat p.1
      (if sgn.1 then -v else v, { chars := p.2, fail := false })

/-- `stream >> aFloat` : sign, integer digits, optional `.` + fraction digits;
at least one digit must be present.  On failure the target is set to `0` and
the stream fails. -/
def CStream.readRat (st : CStream) : ℚ × CStream :=
  if st.fail then (0, st)
  else
    let s := skipWs st.chars
    let sgn : Bool × List Char :=
      match s with
      | '-' :: r => (true, r)
      | '+' :: r => (false, r)
      | _ => (false, s)
    let ip := spanDigits sgn.2
    let fp : List Char × List Char :=
      match ip.2 with
      | '.' :: r => spanDigits r
      | _ => ([], ip.2)
    if ip.1 = [] ∧ fp.1 = [] then (0, { chars := fp.2, fail := true })
    else
      let mant : ℚ :=
        if fp.1 = [] then (digitsToNat ip.1 : ℚ)
        else (digitsToNat ip.1 : ℚ) + (digitsToNat fp.1 : ℚ) / ((10 : ℚ) ^ fp.1.length)
      (if sgn.1 then -mant else mant, { chars := fp.2, fail := false })

/-- `stream.get(temp)` : one character, or failure at end of input. -/
def CStream.get (st : CStream) : Option Char × CStream :=
  if st.fail then (none, st)
  else
    match st.chars with
    | [] => (none, { chars := [], fail := true })
    | c :: r => (some c, { chars := r, fail := false })

/-- The face-reference delimiter skip:
`while (newLine.get(temp)) if (temp == '/' || temp == ' ') break;` —
consumes characters up to and including the first `/` or space; running off
the end fails the stream. -/
def CStream.skipDelim (st : CStream) : CStream :=
  if st.fail then st
  else skipDelimAux st.chars
where
  skipDelimAux : List Char → CStream
    | [] => { chars := [], fail := true }
    | c :: r => if c = '/' ∨ c = ' ' then { chars := r, fail := false } else skipDelimAux r

/-! ## Filesystem abstraction -/

/-- The filesystem seen by the loader: text files as line lists (one entry per
`getline`), binary files as byte lists.  `none` models a file that cannot be
opened. -/
structure FS where
  text : String → Option (List String)
  binary : String → Option (List ℕ)

/-- Path-without-filename extraction used by `loadObject`/`loadMaterials`:
the char buffer is zeroed from the end down to (and excluding) the last
`/` or `\`.  (If the name contains no slash the source loop runs off the
front of the buffer — undefined behaviour; modelled as the empty prefix.) -/
def dirOf (fname : String) : String :=
  String.mk (dirOfAux fname.toList.reverse).reverse
where
  dirOfAux : List Char → List Char
    | [] => []
    | c :: r => if c = '/' ∨ c = '\\' then c :: r else dirOfAux r

/-! ## Texture / TGA decoding (src/unnamed/part_000 = Texture.cpp)

`struct TGA_Header` occupies 18 bytes (byte 2 = ImageType, little-endian
int16 at bytes 12–13 = ImageWidth, at 14–15 = ImageHeight, byte 16 =
PixelDepth); `file.read((char*)&TGAheader, sizeof(TGAheader))` therefore
consumes exactly the first 18 bytes and fails if fewer are available.

The members `width`, `height`, `bpp` are `unsigned int`; assigning the
`GLshort` header fields converts negative values modulo 2^32.  Uninitialised
members are modelled as their `Texture.init` values (the claims never
observe a member before the code assigns it).  `new GLubyte[imageSize]` is
modelled as always succeeding (the `imageData == NULL` check is dead code
with a throwing `new`).  On the short-read path the source `delete`s the
buffer and returns `false`, leaving the member dangling; the model keeps
`imageData = none` there.  The OpenGL upload `createTexture` (called only on
full success) is modelled by the `deviceAllocated` flag. -/

structure Texture where
  imageData : Option (List ℕ)
  bpp : ℕ
  width : ℕ
  height : ℕ
  deviceAllocated : Bool
  name : String
  deriving DecidableEq, Repr

def Texture.init : Texture :=
  { imageData := none, bpp := 0, width := 0, height := 0,
    deviceAllocated := false, name := "" }

/-- Little-endian signed 16-bit value from two bytes (a `GLshort` header
field as stored in the file). -/
def int16OfBytes (lo hi : ℕ) : Int :=
  let v := lo % 256 + 256 * (hi % 256)
  if v < 32768 then (v : Int) else (v : Int) - 65536

/-- C++ conversion `GLshort` → `unsigned int` (reduction mod 2^32). -/
def uintOfInt (i : Int) : ℕ := (i % 4294967296).toNat

/-- The channel-swap loop of `Texture::loadTGA`:
`temp = d[i]; d[i] = d[i+2]; d[i+1] = temp;` stepping `i` by
`bytesPerPixel`.  Note the second store targets `i+1`, not `i+2`.  The fuel
is an iteration bound only (the loop consumes ≥ 3 bytes per iteration, so
`l.length` iterations always suffice); a trailing partial group of fewer
than 3 bytes would be read out of bounds by the source (undefined
behaviour, unreachable for well-formed sizes) and is left unchanged here. -/
def bgrSwapAux (bpp : ℕ) : ℕ → List ℕ → List ℕ
  | 0, l => l
  | fuel + 1, l =>
    match l with
    | b0 :: _b1 :: b2 :: rest =>
      b2 :: b0 :: b2 :: (rest.take (bpp - 3) ++ bgrSwapAux bpp fuel (rest.drop (bpp - 3)))
    | l => l

def bgrSwap (bpp : ℕ) (l : List ℕ) : List ℕ := bgrSwapAux bpp l.length l

/-- `Texture::loadTGA` on the (possibly unopenable) byte content of the
file, threading the `Texture` object whose members it assigns.  Returns
`(returnValue, textureAfter)`. -/
def loadTGA (file : Option (List ℕ)) (t : Texture) : Bool × Texture :=
  match file with
  | none => (false, t)
  | some bytes =>
    if bytes.length < 18 then (false, t)
    else if ¬ (bytes.getD 2 0 % 256 = 2) then (false, t)
    else
      let width := uintOfInt (int16OfBytes (bytes.getD 12 0) (bytes.getD 13 0))
      let height := uintOfInt (int16OfBytes (bytes.getD 14 0) (bytes.getD 15 0))
      let bpp := bytes.getD 16 0 % 256
      let t1 := { t with width := width, height := height, bpp := bpp }
      if width = 0 ∨ height = 0 ∨ (¬ bpp = 24 ∧ ¬ bpp = 32) then (false, t1)
      else
        let bytesPerPixel := bpp / 8
        let imageSize := width * height * bytesPerPixel % 4294967296
        let payload := bytes.drop 18
        if payload.length < imageSize then (false, t1)
        else
          (true, { t1 with imageData := some (bgrSwap bytesPerPixel (payload.take imageSize)),
                           deviceAllocated := true })

/-- The `Texture` constructor: `imageData = NULL; loadTGA(in_filename);` with
the default empty name.  (The static `textures` registry only serves GL-side
teardown and is not modelled.) -/
def Texture.load (file : Option (List ℕ)) : Texture := (loadTGA file Texture.init).2

/-! ## Materials (struct Material in Model.h, Model::loadMaterials) -/

/-- One RGBA coefficient quadruple (`float[4]`). -/
structure Col4 where
  c0 : ℚ
  c1 : ℚ
  c2 : ℚ
  c3 : ℚ
  deriving DecidableEq, Repr

structure Material where
  name : String
  Ka : Col4
  Kd : Col4
  Ks : Col4
  Ke : Col4
  shininess : ℚ
  alpha : ℚ
  illum : ℚ
  ambientMap : Option Texture
  diffuseMap : Option Texture
  specularMap : Option Texture
  emissionMap : Option Texture
  shininessMap : Option Texture
  transparencyMap : Option Texture
  bumpMap : Option Texture
  deriving DecidableEq, Repr

/-- The `Material()` default constructor. -/
def Material.init : Material :=
  { name := ""
    Ka := ⟨0, 0, 0, 1⟩
    Kd := ⟨1, 1, 1, 1⟩
    Ks := ⟨0, 0, 0, 1⟩
    Ke := ⟨0, 0, 0, 1⟩
    shininess := 2
    alpha := 1
    illum := 1
    ambientMap := none, diffuseMap := none, specularMap := none
    emissionMap := none, shininessMap := none, transparencyMap := none
    bumpMap := none }

/-- Apply `f` to the last element: the `material` pointer inside
`loadMaterials` always references the most recently pushed pool entry. -/
def modifyLast (f : α → α) : List α → List α
  | [] => []
  | [a] => [f a]
  | a :: b :: r => a :: modifyLast f (b :: r)

/-- Three `>> float` extractions in sequence (`Ka r g b` and friends). -/
def read3 (st : CStream) : (ℚ × ℚ × ℚ) × CStream :=
  let a := st.readRat
  let b := a.2.readRat
  let c := b.2.readRat
  ((a.1, b.1, c.1), c.2)

/-- A `map_*` branch body: read the file name, construct a `Texture` from
`path + filename` (the constructor always runs, whether or not the decode
succeeds) and store it in the slot selected by `upd` on the current
material. -/
def attachMap (fs : FS) (path : String) (st1 : CStream)
    (upd : Material → Option Texture → Material) (mats : List Material) : List Material :=
  let fn := (st1.readWord).1
  let t := Texture.load (fs.binary (path ++ fn))
  modifyLast (fun m => upd m (some t)) mats

/-- One line of `Model::loadMaterials`.  The accumulator is the material
pool so far plus the `material != NULL` flag (`newmtl` seen in this call).
A property line before any `newmtl` dereferences a null pointer in the
source (undefined behaviour, never exercised here); it is modelled as
ignored. -/
def matLine (fs : FS) (path : String) (acc : List Material × Bool) (line : String) :
    List Material × Bool :=
  let st0 := lineStream line
  let w := (st0.readWord).1
  let st1 := (st0.readWord).2
  if w = "newmtl" then
    (acc.1 ++ [{ Material.init with name := (st1.readWord).1 }], true)
  else if acc.2 = false then acc
  else if w = "illum" then
    (modifyLast (fun m => { m with illum := (st1.readRat).1 }) acc.1, acc.2)
  else if w = "Ka" then
    (modifyLast (fun m =>
      let t := read3 st1
      { m with Ka := { m.Ka with c0 := t.1.1, c1 := t.1.2.1, c2 := t.1.2.2 } }) acc.1, acc.2)
  else if w = "Kd" then
    (modifyLast (fun m =>
      let t := read3 st1
      { m with Kd := { m.Kd with c0 := t.1.1, c1 := t.1.2.1, c2 := t.1.2.2 } }) acc.1, acc.2)
  else if w = "Ks" then
    (modifyLast (fun m =>
      let t := read3 st1
      { m with Ks := { m.Ks with c0 := t.1.1, c1 := t.1.2.1, c2 := t.1.2.2 } }) acc.1, acc.2)
  else if w = "Ke" then
    (modifyLast (fun m =>
      let t := read3 st1
      { m with Ke := { m.Ke with c0 := t.1.1, c1 := t.1.2.1, c2 := t.1.2.2 } }) acc.1, acc.2)
  else if w = "Ns" then
    (modifyLast (fun m => { m with shininess := (st1.readRat).1 }) acc.1, acc.2)
  else if w = "d" ∨ w = "Tr" then
    (modifyLast (fun m => { m with alpha := (st1.readRat).1 }) acc.1, acc.2)
  else if w = "Tf" then
    (modifyLast (fun m =>
      let t := read3 st1
      { m with alpha := (t.1.1 + t.1.2.1 + t.1.2.2) / 3 }) acc.1, acc.2)
  else if w = "map_Ka" then
    (attachMap fs path st1 (fun m o => { m with ambientMap := o }) acc.1, acc.2)
  else if w = "map_Kd" then
    (attachMap fs path st1 (fun m o => { m with diffuseMap := o }) acc.1, acc.2)
  else if w = "map_Ks" then
    (attachMap fs path st1 (fun m o => { m with specularMap := o }) acc.1, acc.2)
  else if w = "map_Ke" then
    (attachMap fs path st1 (fun m o => { m with emissionMap := o }) acc.1, acc.2)
  else if w = "map_Ns" then
    (attachMap fs path st1 (fun m o => { m with shininessMap := o }) acc.1, acc.2)
  else if w = "map_d" then
    (attachMap fs path st1 (fun m o => { m with transparencyMap := o }) acc.1, acc.2)
  else if w = "map_Bump" then
    (attachMap fs path st1 (fun m o => { m with bumpMap := o }) acc.1, acc.2)
  else acc

/-- `Model::loadMaterials` : silently returns the pool unchanged if the file
cannot be opened; otherwise folds `matLine` over the lines, appending to the
caller's pool. -/
def loadMaterials (fs : FS) (fname : String) (mats : List Material) : List Material :=
  match fs.text fname with
  | none => mats
  | some lines => (lines.foldl (matLine fs (dirOf fname)) (mats, false)).1

/-! ## Geometry parser and scene assembly (Model::loadObject)

* The source pushes raw `Vector3*` into the pools and stores pointer arrays
  per face; faces also hold a `Material*`.  Pointer identity into the
  material pool is modelled by the pool index (`Option ℕ`; `none` = `NULL`);
  vertex/normal/UVW references are modelled by the resolved values (pool
  entries are never mutated after being pushed, so values are faithful).
* `currentGroup` is a pointer to an entry of `objects`; `defaultObject` is
  pushed first, so it is `objects[0]`.  The pointer is modelled by the index.
* The source pushes the new `Face*` into `currentGroup->faces` first and
  then fills it in through the pointer; the model builds the face and then
  appends it (the same final state).
* `faceNormal` (and the `Normalize`/cross-product chain that feeds it) is
  omitted: no claim mentions it.
* The GL `displayList` and the 8 `boundingPoints` are omitted; the
  bounding-box extremes `bmin`/`bmax` (from which all 8 points and the
  radius are built) are stored instead. -/

structure Face where
  vertices : List Vec3
  normals : List Vec3
  uvws : List Vec3
  material : Option ℕ
  faceCenter : Vec3
  deriving DecidableEq, Repr

def Face.init : Face :=
  { vertices := [], normals := [], uvws := [], material := none,
    faceCenter := ⟨0, 0, 0⟩ }

structure GroupObject where
  faces : List Face
  objectName : String
  groupName : String
  deriving DecidableEq, Repr

def GroupObject.init : GroupObject := { faces := [], objectName := "", groupName := "" }

structure ModelState where
  objects : List GroupObject
  vertices : List Vec3
  normals : List Vec3
  UVWs : List Vec3
  materials : List Material
  bmin : Vec3
  bmax : Vec3
  center : Vec3
  objectLoaded : Bool
  filename : String
  deriving DecidableEq, Repr

def ModelState.init : ModelState :=
  { objects := [], vertices := [], normals := [], UVWs := [], materials := [],
    bmin := ⟨0, 0, 0⟩, bmax := ⟨0, 0, 0⟩, center := ⟨0, 0, 0⟩,
    objectLoaded := false, filename := "" }

/-- `Model::deleteObjects` as observed through the pools: every pool is
emptied (the `delete` calls only release memory). -/
def deleteObjects (s : ModelState) : ModelState :=
  { s with UVWs := [], normals := [], vertices := [], objects := [], materials := [] }

/-- The in-parse state: the model under construction plus the `currentGroup`
pointer (index into `objects`) and `currentMaterial` pointer (index into
`materials`, `none` = `NULL`). -/
structure PState where
  m : ModelState
  currentGroup : ℕ
  currentMaterial : Option ℕ
  deriving DecidableEq, Repr

/-- Pool lookup `pool[i]` for a face reference (`i` is the parsed 1-based
index minus one).  An out-of-range index is undefined behaviour in the
source (`vertices[--vertex]` unchecked); modelled as the zero vector.  No
claim exercises that case. -/
def nthVec (pool : List Vec3) (i : Int) : Vec3 :=
  if h : 0 ≤ i ∧ i.toNat < pool.length then pool.get ⟨i.toNat, h.2⟩ else ⟨0, 0, 0⟩

/-- The `f`-line reference loop
(`while (newLine >> std::ws && !newLine.eof()) { ... }`).  One iteration
reads a vertex index (if the vertex pool is non-empty), peeks one character
to detect the `v//n` form (`noUV`), un-gets it otherwise, then reads a
texture-coordinate index (if that pool is non-empty and not `noUV`) and a
normal index (if that pool is non-empty), each followed by the
`/`-or-space delimiter skip.  When `get` fails at end of input the source
tests an uninitialised `temp`; only the (no-op) `unget` branch is
observable, which is what the model takes.  The fuel is an iteration bound:
every iteration that does not fail the stream consumes at least one
character, so `chars.length + 1` suffices; if all three pools are empty the
source loop never terminates (the model then stops with the fuel — no claim
exercises that case). -/
def parseFaceRefs (vp up np : List Vec3) :
    ℕ → CStream → List Vec3 × List Vec3 × List Vec3 → List Vec3 × List Vec3 × List Vec3
  | 0, _, acc => acc
  | fuel + 1, st0, acc =>
    if st0.fail then acc
    else
      match skipWs st0.chars with
      | [] => acc
      | c :: cs =>
        let stA : CStream := { chars := c :: cs, fail := false }
        let vStep : List Vec3 × Bool × CStream :=
          if 0 < vp.length then
            let r := stA.readInt
            let st := r.2.skipDelim
            let g := st.get
            match g.1 with
            | some ch =>
              if ch = '/' then (acc.1 ++ [nthVec vp (r.1 - 1)], true, g.2)
              else (acc.1 ++ [nthVec vp (r.1 - 1)], false, st)
            | none => (acc.1 ++ [nthVec vp (r.1 - 1)], false, g.2)
          else (acc.1, false, stA)
        let uStep : List Vec3 × CStream :=
          if 0 < up.length ∧ vStep.2.1 = false then
            let r := vStep.2.2.readInt
            (acc.2.1 ++ [nthVec up (r.1 - 1)], r.2.skipDelim)
          else (acc.2.1, vStep.2.2)
        let nStep : List Vec3 × CStream :=
          if 0 < np.length then
            let r := uStep.2.readInt
            (acc.2.2 ++ [nthVec np (r.1 - 1)], r.2.skipDelim)
          else (acc.2.2, uStep.2)
        parseFaceRefs vp up np fuel nStep.2 (vStep.1, uStep.1, nStep.1)

/-- Building a `Face` from an `f` line (the body of the `f` branch).  After
the reference loop: `faceCenter` is accumulated with `operator+=` over the
resolved vertices and then `faceCenter /= numVertices` is executed — a call
to the non-assigning `operator/=`, whose result is discarded, so
`faceCenter` remains the plain sum. -/
def faceOfLine (p : PState) (st : CStream) : Face :=
  let refs := parseFaceRefs p.m.vertices p.m.UVWs p.m.normals
    (st.chars.length + 1) st ([], [], [])
  let sum := refs.1.foldl (fun acc v => (vecAddEq acc v).2) ⟨0, 0, 0⟩
  { vertices := refs.1
    normals := refs.2.2
    uvws := refs.2.1
    material := p.currentMaterial
    faceCenter := (vecDivEq sum (refs.1.length : ℚ)).2 }

def modifyAt (l : List α) (i : ℕ) (f : α → α) : List α :=
  match l, i with
  | [], _ => []
  | a :: r, 0 => f a :: r
  | a :: r, i + 1 => a :: modifyAt r i f

/-- The `f` branch: push a new face (bound to the current material) onto the
current group. -/
def stepF (p : PState) (st : CStream) : PState :=
  { p with m := { p.m with objects := (modifyAt p.m.objects p.currentGroup
        (fun g => { g with faces := g.faces ++ [faceOfLine p st] })) } }

/-- The `g` branch: `g default` re-targets the implicit default object
(`objects[0]`, pushed before the line loop); any other name allocates and
registers a fresh `GroupObject` (no merging with same-named objects) and
makes it current. -/
def stepG (p : PState) (objectName : String) (st2 : CStream) : PState :=
  if objectName = "default" then { p with currentGroup := 0 }
  else
    { p with
      m := { p.m with objects := p.m.objects ++
        [{ faces := [], objectName := objectName, groupName := (st2.readWord).1 }] }
      currentGroup := p.m.objects.length }

/-- First pool entry whose `name` matches, as pool index (the `usemtl`
linear scan with `break`). -/
def findFirstIdx (mats : List Material) (nm : String) : Option ℕ :=
  match mats with
  | [] => none
  | m :: rest => if m.name = nm then some 0 else (findFirstIdx rest nm).map (· + 1)

/-- The `usemtl` branch: `currentMaterial` is reassigned only when a pool
entry matches; otherwise the loop falls through and the previous value
stays. -/
def stepUsemtl (mats : List Material) (cur : Option ℕ) (nm : String) : Option ℕ :=
  match findFirstIdx mats nm with
  | some i => some i
  | none => cur

/-- The `mtllib` branch: `while (newLine >> materialFilename)
loadMaterials(path + materialFilename);`.  Fuel is an iteration bound (each
successful extraction consumes at least one character). -/
def mtllibLoop (fs : FS) (path : String) : ℕ → CStream → List Material → List Material
  | 0, _, mats => mats
  | fuel + 1, st, mats =>
    let r := st.readWord
    if r.2.fail then mats
    else mtllibLoop fs path fuel r.2 (loadMaterials fs (path ++ r.1) mats)

def firstWordOf (line : String) : String := ((lineStream line).readWord).1

/-- One line of `Model::loadObject`: dispatch on the first token.  Unknown
leading tokens (and `#` comments) are ignored. -/
def processLine (fs : FS) (path : String) (p : PState) (line : String) : PState :=
  let st0 := lineStream line
  let w := (st0.readWord).1
  let st1 := (st0.readWord).2
  if w = "#" then p
  else if w = "mtllib" then
    { p with m := { p.m with
        materials := mtllibLoop fs path (st1.chars.length + 1) st1 p.m.materials } }
  else if w = "usemtl" then
    { p with currentMaterial :=
        stepUsemtl p.m.materials p.currentMaterial ((st1.readWord).1) }
  else if w = "v" then
    let t := read3 st1
    { p with m := { p.m with vertices := p.m.vertices ++ [⟨t.1.1, t.1.2.1, t.1.2.2⟩] } }
  else if w = "vt" then
    let t := read3 st1
    { p with m := { p.m with UVWs := p.m.UVWs ++ [⟨t.1.1, t.1.2.1, t.1.2.2⟩] } }
  else if w = "vn" then
    let t := read3 st1
    { p with m := { p.m with normals := p.m.normals ++ [⟨t.1.1, t.1.2.1, t.1.2.2⟩] } }
  else if w = "g" then stepG p ((st1.readWord).1) ((st1.readWord).2)
  else if w = "f" then stepF p st1
  else p

/-- One step of the bounding-box / centre loop: per-coordinate min/max
update plus `center += *vertices[n]` (the mutating `operator+=`).
The accumulator is `(bmin, bmax, center)`. -/
def boundsStep (acc : Vec3 × Vec3 × Vec3) (v : Vec3) : Vec3 × Vec3 × Vec3 :=
  ( ⟨if v.x < acc.1.x then v.x else acc.1.x,
     if v.y < acc.1.y then v.y else acc.1.y,
     if v.z < acc.1.z then v.z else acc.1.z⟩,
    ⟨if v.x > acc.2.1.x then v.x else acc.2.1.x,
     if v.y > acc.2.1.y then v.y else acc.2.1.y,
     if v.z > acc.2.1.z then v.z else acc.2.1.z⟩,
    (vecAddEq acc.2.2 v).2 )

/-- The post-parse loop over the vertex pool.  Iteration `n = 0` only seeds
the min/max locals and `continue`s — so `vertices[0]` is never added to
`center`.  With an empty pool the source leaves the min/max locals
uninitialised (undefined values); modelled as zeros.  `center` starts from
`Vector3(0, 0, 0)`. -/
def computeBounds : List Vec3 → Vec3 × Vec3 × Vec3
  | [] => (⟨0, 0, 0⟩, ⟨0, 0, 0⟩, ⟨0, 0, 0⟩)
  | v :: rest => rest.foldl boundsStep (v, v, ⟨0, 0, 0⟩)

/-- `Model::loadObject`.  Assigns `filename` before attempting to open;
an unopenable file returns `false` right there.  Otherwise: full teardown,
push the implicit default `GroupObject`, fold the line dispatch, then the
bounding pass; `center /= vertices.size()` calls the non-assigning
`operator/=` and is therefore a no-op on `center`. -/
def loadObject (s : ModelState) (in_filename : String) (fs : FS) : Bool × ModelState :=
  let s1 := { s with filename := in_filename }
  match fs.text in_filename with
  | none => (false, s1)
  | some lines =>
    let s2 := { (deleteObjects s1) with
                objectLoaded := false, objects := [GroupObject.init] }
    let p0 : PState := { m := s2, currentGroup := 0, currentMaterial := none }
    let p := lines.foldl (processLine fs (dirOf in_filename)) p0
    let b := computeBounds p.m.vertices
    let c := (vecDivEq b.2.2 (p.m.vertices.length : ℚ)).2
    (true, { p.m with bmin := b.1, bmax := b.2.1, center := c, objectLoaded := true })

/-- `Model`'s stored `radius`:
`(Vector3(xmax,ymax,zmax) - Vector3(xmin,ymin,zmin)).Length() / 2.0f`,
reconstructed from the stored box extremes. -/
noncomputable def ModelState.radius (s : ModelState) : ℝ :=
  Real.sqrt ((lengthSq (vecSub s.bmax s.bmin) : ℚ) : ℝ) / 2

/-! ## Concrete fixtures

Small scenes, material libraries and image files used to evaluate the
embedding on explicit inputs. -/

/-- A filesystem with no readable files. -/
def fsEmpty : FS := { text := fun _ => none, binary := fun _ => none }

/-- The spec's round-trip scene: one triangular face `f 1 2 3` over vertices
`(0,0,0)`, `(1,0,0)`, `(0,1,0)`. -/
def triScene : List String := ["v 0 0 0", "v 1 0 0", "v 0 1 0", "f 1 2 3"]

def fsTri : FS :=
  { text := fun n => if n = "tri.obj" then some triScene else none,
    binary := fun _ => none }

def triLoaded : ModelState := (loadObject ModelState.init "tri.obj" fsTri).2

/-- Two vertices at `(0,0,0)` and `(2,0,0)` (the spec's bounding example). -/
def twoScene : List String := ["v 0 0 0", "v 2 0 0"]

def fsTwo : FS :=
  { text := fun n => if n = "two.obj" then some twoScene else none,
    binary := fun _ => none }

def twoLoaded : ModelState := (loadObject ModelState.init "two.obj" fsTwo).2

/-- A single-vertex model. -/
def oneScene : List String := ["v 5 0 0"]

def fsOne : FS :=
  { text := fun n => if n = "one.obj" then some oneScene else none,
    binary := fun _ => none }

def oneLoaded : ModelState := (loadObject ModelState.init "one.obj" fsOne).2

/-- A model with non-empty pools and a recorded source path, used to observe
what a failed reload touches. -/
def demoState : ModelState :=
  { ModelState.init with
    filename := "old.obj"
    vertices := [⟨1, 2, 3⟩]
    objects := [GroupObject.init]
    objectLoaded := true }

/-- A well-formed 1×1 24-bit TGA whose single pixel is stored as bytes
`[1, 2, 3]`. -/
def tgaGood : List ℕ :=
  [0, 0, 2, 0, 0, 0, 0, 0, 0, 0, 0, 0, 1, 0, 1, 0, 24, 0] ++ [1, 2, 3]

/-- A TGA whose ImageWidth and ImageHeight fields hold `-1` (bytes
`FF FF`), depth 24, with 3 payload bytes. -/
def tgaNegDims : List ℕ :=
  [0, 0, 2, 0, 0, 0, 0, 0, 0, 0, 0, 0, 255, 255, 255, 255, 24, 0] ++ [1, 2, 3]

/-- A TGA with `imageType = 3` (not uncompressed truecolor). -/
def tgaBadType : List ℕ :=
  [0, 0, 3, 0, 0, 0, 0, 0, 0, 0, 0, 0, 1, 0, 1, 0, 24, 0] ++ [9, 9, 9]

/-- A material library whose first material names an undecodable texture
map, followed by a further `newmtl`. -/
def c7Lib : List String := ["newmtl m", "map_Kd bad.tga", "newmtl n"]

def fsC7 : FS :=
  { text := fun n => if n = "lib.mtl" then some c7Lib else none,
    binary := fun n => if n = "bad.tga" then some tgaBadType else none }

/-- A material library defining two materials with the same name but
different diffuse colours. -/
def dupLib : List String := ["newmtl A", "Kd 1 0 0", "newmtl A", "Kd 0 1 0"]

def fsDup : FS :=
  { text := fun n => if n = "dup.mtl" then some dupLib else none,
    binary := fun _ => none }

def dupPool : List Material := loadMaterials fsDup "dup.mtl" []

/-- A pool with one material named `A`. -/
def mA : Material := { Material.init with name := "A" }

/-- In-parse state with material `A` active, about to see `usemtl B`. -/
def p0C6 : PState :=
  { m := { ModelState.init with materials := [mA], objects := [GroupObject.init] },
    currentGroup := 0, currentMaterial := some 0 }

/-- A scene exercising grouping: a face in an explicit group, then
`g default`, then two more faces. -/
def gScene : List String :=
  ["v 0 0 0", "g left", "f 1", "g default", "f 1", "f 1"]

def fsG : FS :=
  { text := fun n => if n = "g.obj" then some gScene else none,
    binary := fun _ => none }

def gLoaded : ModelState := (loadObject ModelState.init "g.obj" fsG).2

/-- In-parse state used to instantiate the grouping theorem. -/
def pW : PState :=
  { m := { ModelState.init with vertices := [⟨0, 0, 0⟩], objects := [GroupObject.init] },
    currentGroup := 0, currentMaterial := none }

/-! ## Helper lemmas -/

theorem vecDivScalar_eq_none (fuel : ℕ) (v : Vec3) (s : ℚ) :
    vecDivScalar fuel v s = none := by
  induction fuel with
  | zero => rfl
  | succ fuel ih => rw [vecDivScalar, ih]

theorem vecMulScalar_eq_none (fuel : ℕ) (v : Vec3) (s : ℚ) :
    vecMulScalar fuel v s = none := by
  induction fuel with
  | zero => rfl
  | succ fuel ih => rw [vecMulScalar, ih]

theorem findFirstIdx_eq_none (mats : List Material) (nm : String)
    (h : ∀ m ∈ mats, m.name ≠ nm) : findFirstIdx mats nm = none := by
  induction mats with
  | nil => rfl
  | cons m rest ih =>
    rw [findFirstIdx, if_neg (h m (List.mem_cons_self m rest)),
      ih (fun x hx => h x (List.mem_cons_of_mem m hx))]
    rfl

theorem findFirstIdx_spec :
    ∀ (mats : List Material) (nm : String) (i : ℕ), findFirstIdx mats nm = some i →
      i < mats.length ∧ (mats.getD i Material.init).name = nm ∧
        ∀ j, j < i → (mats.getD j Material.init).name ≠ nm := by
  intro mats
  induction mats with
  | nil => intro nm i h; exact absurd h (by simp [findFirstIdx])
  | cons m rest ih =>
    intro nm i h
    rw [findFirstIdx] at h
    by_cases hm : m.name = nm
    · rw [if_pos hm] at h
      obtain rfl : i = 0 := by injection h with h; omega
      exact ⟨Nat.succ_pos _, hm, fun j hj => absurd hj (Nat.not_lt_zero j)⟩
    · rw [if_neg hm] at h
      cases hr : findFirstIdx rest nm with
      | none => rw [hr] at h; exact absurd h (by simp)
      | some k =>
        rw [hr] at h
        obtain rfl : i = k + 1 := by
          simp only [Option.map_some'] at h
          injection h with h
          omega
        obtain ⟨hk, hname, hmin⟩ := ih nm k hr
        refine ⟨by simpa using hk, by simpa using hname, ?_⟩
        intro j hj
        cases j with
        | zero => simpa using hm
        | succ j' => simpa using hmin j' (by omega)

theorem modifyLast_append (f : Material → Material) (xs : List Material) (a : Material) :
    modifyLast f (xs ++ [a]) = xs ++ [f a] := by
  induction xs with
  | nil => rfl
  | cons x xs ih =>
    cases xs with
    | nil => rfl
    | cons y ys => simpa [modifyLast] using ih

/-- `loadTGA` on a readable file with a full header but an unsupported image
subtype: fails before touching any member of the texture. -/
theorem loadTGA_badType (bytes : List ℕ) (t : Texture)
    (h18 : 18 ≤ bytes.length) (htype : ¬ bytes.getD 2 0 % 256 = 2) :
    loadTGA (some bytes) t = (false, t) := by
  simp only [loadTGA]
  rw [if_neg (by omega), if_pos htype]

/-! ## Claim theorems -/

set_option maxRecDepth 100000

/-- Claim C1 (code bug).  The claim states `faceCenter` is the arithmetic
mean of the face's resolved vertex positions, with `f 1 2 3` over
`(0,0,0), (1,0,0), (0,1,0)` yielding `(1/3, 1/3, 0)`.  The code accumulates
the sum with `operator+=` but the final `faceCenter /= numVertices`
(Model.cpp:388) calls the non-assigning `operator/=` (Vector3.h:143), so the
division is discarded: loading that scene leaves `faceCenter = (1, 1, 0)`,
the component-wise sum, not the mean `(1/3, 1/3, 0)`. -/
theorem C1_faceCenter_is_sum_not_mean :
    ((triLoaded.objects.getD 0 GroupObject.init).faces.getD 0 Face.init).vertices
        = [⟨0, 0, 0⟩, ⟨1, 0, 0⟩, ⟨0, 1, 0⟩]
    ∧ ((triLoaded.objects.getD 0 GroupObject.init).faces.getD 0 Face.init).faceCenter
        = ⟨1, 1, 0⟩
    ∧ (⟨1, 1, 0⟩ : Vec3) ≠ ⟨1/3, 1/3, 0⟩ := by
  refine ⟨by decide, by decide, ?_⟩
  intro h
  have hx := congrArg Vec3.x h
  norm_num at hx

/-- Claim C2 (code bug).  The claim states the scene centre is the
arithmetic mean of all vertex positions and the radius is half the
bounding-box diagonal, with `(0,0,0),(2,0,0)` giving centre `(1,0,0)` and
radius `1`.  The half-diagonal radius part holds (radius `1` for the
two-vertex model, `0` for a single vertex), but the centre is wrong twice
over: the bounding loop `continue`s at `n == 0` without accumulating
`vertices[0]`, and `center /= vertices.size()` (Model.cpp:427) calls the
non-assigning `operator/=`, so the division is discarded.  The two-vertex
model therefore ends with centre `(2,0,0)`, not `(1,0,0)` (and the
single-vertex model with `(0,0,0)`, not the vertex itself). -/
theorem C2_center_is_partial_sum_radius_half_diagonal :
    twoLoaded.vertices = [⟨0, 0, 0⟩, ⟨2, 0, 0⟩]
    ∧ twoLoaded.center = ⟨2, 0, 0⟩
    ∧ (⟨2, 0, 0⟩ : Vec3) ≠ ⟨1, 0, 0⟩
    ∧ twoLoaded.radius = 1
    ∧ oneLoaded.radius = 0
    ∧ oneLoaded.center = ⟨0, 0, 0⟩ := by
  refine ⟨by decide, by decide, by decide, ?_, ?_, by decide⟩
  · have hmax : twoLoaded.bmax = ⟨2, 0, 0⟩ := by decide
    have hmin : twoLoaded.bmin = ⟨0, 0, 0⟩ := by decide
    rw [ModelState.radius, hmax, hmin]
    have h4 : ((lengthSq (vecSub ⟨2, 0, 0⟩ ⟨0, 0, 0⟩) : ℚ) : ℝ) = 4 := by
      norm_num [lengthSq, vecSub]
    rw [h4, show (4 : ℝ) = 2 ^ 2 by norm_num,
      Real.sqrt_sq (by norm_num : (0 : ℝ) ≤ 2)]
    norm_num
  · have hmax : oneLoaded.bmax = ⟨5, 0, 0⟩ := by decide
    have hmin : oneLoaded.bmin = ⟨5, 0, 0⟩ := by decide
    rw [ModelState.radius, hmax, hmin]
    have h0 : ((lengthSq (vecSub ⟨5, 0, 0⟩ ⟨5, 0, 0⟩) : ℚ) : ℝ) = 0 := by
      norm_num [lengthSq, vecSub]
    rw [h0, Real.sqrt_zero]
    norm_num

/-- Claim C3 counterexample.  The claim asserts the plain expression
`v / s` assigns the quotient into `v`; in fact `operator/`(float) is
written `return (*this = (*this / num));` whose inner division is the same
operator, so the call recurses unconditionally and never produces a value:
at `v = (8,4,2)`, `s = 2`, no amount of fuel yields a result. -/
theorem C3_div_never_terminates :
    ¬ ∃ fuel r, vecDivScalar fuel ⟨8, 4, 2⟩ 2 = some r := by
  rintro ⟨fuel, r, h⟩
  rw [vecDivScalar_eq_none] at h
  exact Option.noConfusion h

/-- Claim C3 (corrected).  What holds: `v /= s` and `v *= s` return the
component-wise quotient/product as a value and leave `v`'s own components
unchanged; the plain scalar `v / s` and `v * s`, however, do not assign the
quotient/product into `v` — each is an unconditional self-recursive
self-assignment that never terminates (no fuel bound suffices), so they
never produce a value at all. -/
theorem C3_operator_pair_semantics (v : Vec3) (s : ℚ) :
    (vecDivEq v s).1 = ⟨v.x / s, v.y / s, v.z / s⟩
    ∧ (vecDivEq v s).2 = v
    ∧ (vecMulEq v s).1 = ⟨v.x * s, v.y * s, v.z * s⟩
    ∧ (vecMulEq v s).2 = v
    ∧ (∀ fuel, vecDivScalar fuel v s = none)
    ∧ (∀ fuel, vecMulScalar fuel v s = none) :=
  ⟨rfl, rfl, rfl, rfl, fun fuel => vecDivScalar_eq_none fuel v s,
   fun fuel => vecMulScalar_eq_none fuel v s⟩

/-- Claim C4 (code bug).  The claim (and the code's own comment
`BGR --> RGB. Swap B and R`) says bytes 0 and 2 of each pixel group are
swapped with the middle byte unchanged, i.e. `[1,2,3] ↦ [3,2,1]`.  The loop
body is `temp = d[i]; d[i] = d[i+2]; d[i+1] = temp;` — the old byte 0 is
written to index 1, not 2 — so a decoded 1×1 24-bit image with stored pixel
`[1,2,3]` returns `[3,1,3]`: byte 2 is duplicated into byte 0 and the
middle channel is overwritten with old byte 0 (its value is lost). -/
theorem C4_channel_swap_mangles_middle_byte :
    (loadTGA (some tgaGood) Texture.init).1 = true
    ∧ ((loadTGA (some tgaGood) Texture.init).2).imageData = some [3, 1, 3]
    ∧ ((3 : ℕ) :: 1 :: 3 :: []) ≠ [3, 2, 1] := by decide

/-- Claim C5 counterexample.  The claim says a failed open leaves every
part of the Model's state — including the source path — unmodified.  But
`loadObject` assigns `filename = in_filename` before attempting the open
(Model.cpp:225-229), so a failed reload of `missing.obj` over a model whose
recorded path was `old.obj` leaves a state different from the original,
with `filename = "missing.obj"`. -/
theorem C5_failed_open_rewrites_filename :
    (loadObject demoState "missing.obj" fsEmpty).1 = false
    ∧ (loadObject demoState "missing.obj" fsEmpty).2 ≠ demoState
    ∧ (loadObject demoState "missing.obj" fsEmpty).2.filename = "missing.obj" := by
  decide

/-- Claim C5 (corrected).  When the primary scene file cannot be opened the
top-level load reports failure and modifies nothing — pools, derived
scalars and the loaded flag are untouched — except the source path, which
has already been set to the requested filename before the open was
attempted. -/
theorem C5_failed_open_touches_only_filename (s : ModelState) (fname : String)
    (fs : FS) (h : fs.text fname = none) :
    loadObject s fname fs = (false, { s with filename := fname }) := by
  simp [loadObject, h]

/-- Witness for `C5_failed_open_touches_only_filename` at a concrete model
state and filesystem. -/
theorem C5_failed_open_witness :
    fsEmpty.text "missing.obj" = none
    ∧ loadObject demoState "missing.obj" fsEmpty
        = (false, { demoState with filename := "missing.obj" }) :=
  ⟨rfl, C5_failed_open_touches_only_filename demoState "missing.obj" fsEmpty rfl⟩

/-- Claim C6 counterexample.  The claim says that when no pool entry
matches a `usemtl` name the active material "becomes absent".  In the code
the scan only assigns `currentMaterial` on a match, so with material `A`
active, processing `usemtl B` over a pool containing only `A` leaves `A`
active — the current material does not become absent. -/
theorem C6_no_match_keeps_previous_material :
    (processLine fsEmpty "" p0C6 "usemtl B").currentMaterial = some 0
    ∧ some 0 ≠ (none : Option ℕ) := by decide

/-- Claim C6 (corrected).  A `usemtl <name>` directive sets the active
material to the first pool entry whose name matches exactly; if no pool
entry matches, the active material is left UNCHANGED (the previously
active material, or absent only if none was ever active) — not made
absent — and every face parsed afterwards is created with whatever the
active material then is. -/
theorem C6_usemtl_no_match_is_noop (mats : List Material) (cur : Option ℕ)
    (nm : String) (h : ∀ m ∈ mats, m.name ≠ nm) :
    stepUsemtl mats cur nm = cur
    ∧ ∀ p st, (faceOfLine p st).material = p.currentMaterial := by
  refine ⟨?_, fun p st => rfl⟩
  rw [stepUsemtl, findFirstIdx_eq_none mats nm h]

/-- Witness for `C6_usemtl_no_match_is_noop`: with the one-entry pool `[A]`
and material `A` active, `usemtl B` keeps `A` active. -/
theorem C6_usemtl_no_match_witness :
    (∀ m ∈ [mA], m.name ≠ "B") ∧ stepUsemtl [mA] (some 0) "B" = some 0 :=
  ⟨by decide, (C6_usemtl_no_match_is_noop [mA] (some 0) "B" (by decide)).1⟩

/-- Claim C7 counterexample.  The claim says a texture-map directive whose
image has `imageType != 2` produces no Texture attached to the material's
map slot.  The `map_Kd` branch constructs the `Texture` object and assigns
it to `diffuseMap` unconditionally — the decode failure only leaves the
object empty — so after parsing a library whose `map_Kd` names a type-3
image, the first material's diffuse slot is occupied, not absent. -/
theorem C7_texture_object_attached_despite_bad_type :
    ((loadMaterials fsC7 "lib.mtl" []).getD 0 Material.init).diffuseMap ≠ none := by
  decide

/-- Claim C7 (corrected).  For a texture-map directive whose image file has
`imageType != 2` the decode fails before reading any image property: the
constructed `Texture` object carries no pixel data and no device resource
is allocated — but that (empty) `Texture` object IS attached to the current
material's map slot — and the enclosing material-library parse continues
rather than aborting (the library's later `newmtl` still creates its
material). -/
theorem C7_bad_type_attaches_empty_texture (fs : FS) (path : String)
    (st1 : CStream) (mats : List Material) (m0 : Material) (bytes : List ℕ)
    (hb : fs.binary (path ++ (st1.readWord).1) = some bytes)
    (h18 : 18 ≤ bytes.length) (htype : ¬ bytes.getD 2 0 % 256 = 2) :
    Texture.load (fs.binary (path ++ (st1.readWord).1)) = Texture.init
    ∧ attachMap fs path st1 (fun m o => { m with diffuseMap := o }) (mats ++ [m0])
        = mats ++ [{ m0 with diffuseMap := some Texture.init }]
    ∧ Texture.init.imageData = none
    ∧ Texture.init.deviceAllocated = false
    ∧ (loadMaterials fsC7 "lib.mtl" []).length = 2
    ∧ ((loadMaterials fsC7 "lib.mtl" []).getD 1 Material.init).name = "n" := by
  have hload : Texture.load (fs.binary (path ++ (st1.readWord).1)) = Texture.init := by
    rw [hb, Texture.load, loadTGA_badType bytes Texture.init h18 htype]
  refine ⟨hload, ?_, rfl, rfl, by decide, by decide⟩
  simp only [attachMap, modifyLast_append, hload]

/-- The stream state of the `map_Kd bad.tga` line after its first word has
been consumed, used to instantiate `C7_bad_type_attaches_empty_texture`. -/
def c7Stream : CStream := ((lineStream "map_Kd bad.tga").readWord).2

/-- Witness for `C7_bad_type_attaches_empty_texture` on the concrete
library `c7Lib` and its type-3 image file. -/
theorem C7_bad_type_witness :
    fsC7.binary ("" ++ (c7Stream.readWord).1) = some tgaBadType
    ∧ 18 ≤ tgaBadType.length
    ∧ ¬ tgaBadType.getD 2 0 % 256 = 2
    ∧ Texture.load (fsC7.binary ("" ++ (c7Stream.readWord).1)) = Texture.init :=
  ⟨by decide, by decide, by decide,
   (C7_bad_type_attaches_empty_texture fsC7 "" c7Stream [] Material.init tgaBadType
     (by decide) (by decide) (by decide)).1⟩

/-- Claim C8 (code bug).  The claim says the decode succeeds only when
width and height are positive (among the other header conditions).  The
members `width`/`height` are `unsigned int`, so assigning the signed
`GLshort` header fields converts negative dimensions to huge values and the
`width <= 0 || height <= 0` test — always false for a non-zero unsigned
value — lets them through; the payload size is then computed modulo 2^32.
A file whose stored dimensions are `-1 × -1` at depth 24 has
`imageSize = ((2^32-1)·(2^32-1)·3) mod 2^32 = 3`, so with 3 payload bytes
the decode SUCCEEDS (returning `width = 4294967295`), where the claim
requires failure. -/
theorem C8_negative_dims_accepted :
    int16OfBytes 255 255 = -1
    ∧ (loadTGA (some tgaNegDims) Texture.init).1 = true
    ∧ ((loadTGA (some tgaNegDims) Texture.init).2).width = 4294967295
    ∧ ((loadTGA (some tgaNegDims) Texture.init).2).imageData = some [3, 1, 3] := by
  decide

/-- Claim C9 (confirmed).  `g default` re-activates the implicit default
object (`objects[0]`) and leaves the object pool unchanged; a `g` line with
any other name always allocates and registers a fresh `GroupObject` (even
if one of that name exists — the theorem holds for every state, including
those already containing such an object) and makes it current; an `f` line
appends its face to the currently active object, and no line other than a
`g` line changes which object is active.  Concretely, in a scene with
`g left`, one face, `g default`, two faces: the default object ends with
the two faces parsed after `g default`, the `left` object with one. -/
theorem C9_g_default_reactivates_first_object (p : PState) (nm : String)
    (st st2 : CStream) (fs : FS) (path line : String) (h : nm ≠ "default") :
    (stepG p "default" st).m.objects = p.m.objects
    ∧ (stepG p "default" st).currentGroup = 0
    ∧ (stepG p nm st).m.objects
        = p.m.objects ++ [{ faces := [], objectName := nm, groupName := (st.readWord).1 }]
    ∧ (stepG p nm st).currentGroup = p.m.objects.length
    ∧ (stepF p st2).m.objects
        = modifyAt p.m.objects p.currentGroup
            (fun g => { g with faces := g.faces ++ [faceOfLine p st2] })
    ∧ (firstWordOf line ≠ "g" → (processLine fs path p line).currentGroup = p.currentGroup)
    ∧ gLoaded.objects.length = 2
    ∧ (gLoaded.objects.getD 0 GroupObject.init).faces.length = 2
    ∧ (gLoaded.objects.getD 1 GroupObject.init).faces.length = 1
    ∧ (gLoaded.objects.getD 1 GroupObject.init).objectName = "left" := by
  refine ⟨by simp [stepG], by simp [stepG], by simp [stepG, h], by simp [stepG, h], rfl, ?_,
    by decide, by decide, by decide, by decide⟩
  intro hg
  simp only [firstWordOf] at hg
  simp only [processLine]
  split_ifs <;> simp_all [stepG, stepF]

/-- Witness for `C9_g_default_reactivates_first_object` at a concrete
in-parse state and group name. -/
theorem C9_grouping_witness :
    ("left" ≠ "default")
    ∧ (stepG pW "left" (lineStream "")).currentGroup = pW.m.objects.length :=
  ⟨by decide,
   (C9_g_default_reactivates_first_object pW "left" (lineStream "") (lineStream " 1")
     fsEmpty "" "f 1" (by decide)).2.2.2.1⟩

/-- Claim C10 (confirmed).  `newmtl` always appends a fresh pool entry, so
a library defining two materials with the same name yields two independent
entries (here distinguishable by their diffuse colours), and the `usemtl`
scan binds to the first match in pool insertion order: whenever the scan
returns index `i`, entry `i` matches and no earlier entry does; on the
duplicate pool it returns index 0. -/
theorem C10_duplicate_names_coexist_first_match_wins (mats : List Material)
    (nm : String) (i : ℕ) (h : findFirstIdx mats nm = some i) :
    (i < mats.length ∧ (mats.getD i Material.init).name = nm
      ∧ ∀ j, j < i → (mats.getD j Material.init).name ≠ nm)
    ∧ dupPool.length = 2
    ∧ (dupPool.getD 0 Material.init).name = "A"
    ∧ (dupPool.getD 1 Material.init).name = "A"
    ∧ (dupPool.getD 0 Material.init).Kd ≠ (dupPool.getD 1 Material.init).Kd
    ∧ stepUsemtl dupPool none "A" = some 0 :=
  ⟨findFirstIdx_spec mats nm i h, by decide, by decide, by decide, by decide, by decide⟩

/-- Witness for `C10_duplicate_names_coexist_first_match_wins` on the
concrete duplicate-name pool. -/
theorem C10_duplicate_names_witness :
    findFirstIdx dupPool "A" = some 0 ∧ (dupPool.getD 0 Material.init).name = "A" :=
  ⟨by decide, (C10_duplicate_names_coexist_first_match_wins dupPool "A" 0 (by decide)).1.2.1⟩

end FPS
